import Mathlib

/-!
Shallow embedding of `inspirehep/modules/workflows/tasks/matching.py`:
record-matching tasks for an ingestion workflow.  Python values are
modelled by the inductive `PyVal`, exceptions by `Except PyErr`, the
remote HTTP endpoint, the holding-pen search and the invenio matcher by
oracle parameters, and each task returns its updated workflow object
together with the trace of requests it issued and the log messages it
emitted.  Utility functions imported from outside this module
(`get_clean_arXiv_id`, `get_value`, `date_older_than`) are represented
by precomputed record fields or function parameters, as documented at
each use.
-/

namespace Matching

/-- A Python value, as far as this module observes them: `None`, booleans,
integers, strings, lists and string-keyed dicts. -/
inductive PyVal where
  | none : PyVal
  | bool : Bool → PyVal
  | int : Int → PyVal
  | str : String → PyVal
  | list : List PyVal → PyVal
  | dict : List (String × PyVal) → PyVal

/-- `True` exactly for `PyVal.str _`. -/
def PyVal.isStr : PyVal → Bool
  | .str _ => true
  | _ => false

mutual

/-- Decidable equality of Python values (the nested inductive defeats
`deriving`). -/
def PyVal.decEq : (a b : PyVal) → Decidable (a = b)
  | .none, .none => isTrue rfl
  | .none, .bool _ => isFalse (fun h => nomatch h)
  | .none, .int _ => isFalse (fun h => nomatch h)
  | .none, .str _ => isFalse (fun h => nomatch h)
  | .none, .list _ => isFalse (fun h => nomatch h)
  | .none, .dict _ => isFalse (fun h => nomatch h)
  | .bool _, .none => isFalse (fun h => nomatch h)
  | .bool a, .bool b =>
    if h : a = b then isTrue (by rw [h]) else isFalse (fun hh => h (by injection hh))
  | .bool _, .int _ => isFalse (fun h => nomatch h)
  | .bool _, .str _ => isFalse (fun h => nomatch h)
  | .bool _, .list _ => isFalse (fun h => nomatch h)
  | .bool _, .dict _ => isFalse (fun h => nomatch h)
  | .int _, .none => isFalse (fun h => nomatch h)
  | .int _, .bool _ => isFalse (fun h => nomatch h)
  | .int a, .int b =>
    if h : a = b then isTrue (by rw [h]) else isFalse (fun hh => h (by injection hh))
  | .int _, .str _ => isFalse (fun h => nomatch h)
  | .int _, .list _ => isFalse (fun h => nomatch h)
  | .int _, .dict _ => isFalse (fun h => nomatch h)
  | .str _, .none => isFalse (fun h => nomatch h)
  | .str _, .bool _ => isFalse (fun h => nomatch h)
  | .str _, .int _ => isFalse (fun h => nomatch h)
  | .str a, .str b =>
    if h : a = b then isTrue (by rw [h]) else isFalse (fun hh => h (by injection hh))
  | .str _, .list _ => isFalse (fun h => nomatch h)
  | .str _, .dict _ => isFalse (fun h => nomatch h)
  | .list _, .none => isFalse (fun h => nomatch h)
  | .list _, .bool _ => isFalse (fun h => nomatch h)
  | .list _, .int _ => isFalse (fun h => nomatch h)
  | .list _, .str _ => isFalse (fun h => nomatch h)
  | .list a, .list b =>
    match PyVal.decEqList a b with
    | isTrue h => isTrue (by rw [h])
    | isFalse h => isFalse (fun hh => h (by injection hh))
  | .list _, .dict _ => isFalse (fun h => nomatch h)
  | .dict _, .none => isFalse (fun h => nomatch h)
  | .dict _, .bool _ => isFalse (fun h => nomatch h)
  | .dict _, .int _ => isFalse (fun h => nomatch h)
  | .dict _, .str _ => isFalse (fun h => nomatch h)
  | .dict _, .list _ => isFalse (fun h => nomatch h)
  | .dict a, .dict b =>
    match PyVal.decEqDict a b with
    | isTrue h => isTrue (by rw [h])
    | isFalse h => isFalse (fun hh => h (by injection hh))

def PyVal.decEqList : (a b : List PyVal) → Decidable (a = b)
  | [], [] => isTrue rfl
  | [], _ :: _ => isFalse (fun h => nomatch h)
  | _ :: _, [] => isFalse (fun h => nomatch h)
  | x :: xs, y :: ys =>
    match PyVal.decEq x y, PyVal.decEqList xs ys with
    | isTrue h₁, isTrue h₂ => isTrue (by rw [h₁, h₂])
    | isFalse h₁, _ => isFalse (fun hh => h₁ (by injection hh))
    | _, isFalse h₂ => isFalse (fun hh => h₂ (by injection hh))

def PyVal.decEqDict : (a b : List (String × PyVal)) → Decidable (a = b)
  | [], [] => isTrue rfl
  | [], _ :: _ => isFalse (fun h => nomatch h)
  | _ :: _, [] => isFalse (fun h => nomatch h)
  | (k, v) :: xs, (k₂, v₂) :: ys =>
    if hk : k = k₂ then
      match PyVal.decEq v v₂, PyVal.decEqDict xs ys with
      | isTrue h₁, isTrue h₂ => isTrue (by rw [hk, h₁, h₂])
      | isFalse h₁, _ =>
        isFalse (fun hh => h₁ (congrArg Prod.snd (by injection hh)))
      | _, isFalse h₂ => isFalse (fun hh => h₂ (by injection hh))
    else
      isFalse (fun hh => hk (congrArg Prod.fst (by injection hh)))

end

instance : DecidableEq PyVal := PyVal.decEq

/-- The exceptions this module can raise or propagate. -/
inductive PyErr where
  | connectionError : PyErr
  | valueError : PyErr
  | typeError : PyErr
  | attributeError : PyErr
  | nameError : String → PyErr
  | exception : String → PyErr
deriving DecidableEq

mutual

/-- Python `repr` of a value (string escaping inside `repr` of a `str` is
not modelled; no claim depends on it). -/
def pyRepr : PyVal → String
  | .none => "None"
  | .bool true => "True"
  | .bool false => "False"
  | .int n => toString n
  | .str s => "\x27" ++ s ++ "\x27"
  | .list l => "[" ++ pyReprList l ++ "]"
  | .dict l => "\x7b" ++ pyReprDict l ++ "\x7d"

def pyReprList : List PyVal → String
  | [] => ""
  | [x] => pyRepr x
  | x :: xs => pyRepr x ++ ", " ++ pyReprList xs

def pyReprDict : List (String × PyVal) → String
  | [] => ""
  | [(k, v)] => "\x27" ++ k ++ "\x27: " ++ pyRepr v
  | (k, v) :: xs => "\x27" ++ k ++ "\x27: " ++ pyRepr v ++ ", " ++ pyReprDict xs

end

/-- Python `str(...)` of a value: like `repr` except that a string maps to
itself. -/
def pyStr : PyVal → String
  | .str s => s
  | v => pyRepr v

/-- Lookup in a string-keyed dict (first binding wins, as with the
shadowing `dictSet` below). -/
def dictLookup (m : List (String × PyVal)) (k : String) : Option PyVal :=
  match m with
  | [] => Option.none
  | (k₁, v) :: rest => if k₁ = k then some v else dictLookup rest k

/-- Python `d.get(k, default)`. -/
def dictGetD (m : List (String × PyVal)) (k : String) (d : PyVal) : PyVal :=
  (dictLookup m k).getD d

/-- Python `d[k] = v`: the dict is modelled by its lookup function, so
assignment is shadowing cons. -/
def dictSet (m : List (String × PyVal)) (k : String) (v : PyVal) :
    List (String × PyVal) :=
  (k, v) :: m

/-- Insert into a Python set modelled as a duplicate-free list (insertion
order; Python set order is unspecified and no claim depends on it). -/
def setInsert (s : List PyVal) (v : PyVal) : List PyVal :=
  if v ∈ s then s else s ++ [v]

/-- `s.update(xs)` for a Python set `s`. -/
def setUpdateList (s : List PyVal) (xs : List PyVal) : List PyVal :=
  xs.foldl setInsert s

/-- Python iteration over a value, as used by `set(...)` and
`set.update(...)`: lists yield their elements, strings their characters,
dicts their keys; `None`, booleans and integers are not iterable
(`TypeError`). -/
def iterElems : PyVal → Except PyErr (List PyVal)
  | .list l => .ok l
  | .str s => .ok (s.toList.map (fun c => .str (String.mk [c])))
  | .dict l => .ok (l.map (fun kv => .str kv.1))
  | _ => .error .typeError

/-- A calendar date, for `datetime.datetime.strptime(_, "%Y-%m-%d")`. -/
structure Date where
  year : Nat
  month : Nat
  day : Nat
deriving DecidableEq

/-- Day count of a month, with leap years, as `strptime` validates. -/
def daysInMonth (y m : Nat) : Nat :=
  if m = 2 then
    if y % 4 = 0 ∧ (y % 100 ≠ 0 ∨ y % 400 = 0) then 29 else 28
  else if m = 4 ∨ m = 6 ∨ m = 9 ∨ m = 11 then 30
  else 31

/-- Numeric value of a list of decimal digit characters. -/
def digitsToNat (cs : List Char) : Nat :=
  cs.foldl (fun n c => 10 * n + (c.toNat - 48)) 0

/-- The `%m` token of CPython `_strptime`, the regex
`1[0-2]|0[1-9]|[1-9]` in alternation order, returning the month and the
unconsumed rest.  Committing to the two-character alternative is
equivalent to the engine's backtracking: when `1x` (`x` in `0..2`)
matches but the following literal `-` fails, the one-character
alternative `1` would demand `-` at `x`, which also fails. -/
def parseMonth : List Char → Option (Nat × List Char)
  | c :: c₂ :: rest =>
    if c = '1' ∧ (c₂ = '0' ∨ c₂ = '1' ∨ c₂ = '2') then
      some (10 + (c₂.toNat - 48), rest)
    else if c = '0' ∧ ('1' ≤ c₂ ∧ c₂ ≤ '9') then
      some (c₂.toNat - 48, rest)
    else if '1' ≤ c ∧ c ≤ '9' then
      some (c.toNat - 48, c₂ :: rest)
    else Option.none
  | [c] =>
    if '1' ≤ c ∧ c ≤ '9' then some (c.toNat - 48, []) else Option.none
  | [] => Option.none

/-- The `%d` token of CPython `_strptime`, the regex
`3[01]|[12]\d|0[1-9]|[1-9]| [1-9]` in alternation order (note the
space-padded final alternative), returning the day and the unconsumed
rest.  Nothing follows `%d` in the format, so the extra characters a
shorter alternative would leave are caught by the "unconverted data
remains" check, i.e. by requiring the rest to be empty at the call
site. -/
def parseDay : List Char → Option (Nat × List Char)
  | c :: c₂ :: rest =>
    if c = '3' ∧ (c₂ = '0' ∨ c₂ = '1') then
      some (30 + (c₂.toNat - 48), rest)
    else if (c = '1' ∨ c = '2') ∧ c₂.isDigit then
      some ((c.toNat - 48) * 10 + (c₂.toNat - 48), rest)
    else if c = '0' ∧ ('1' ≤ c₂ ∧ c₂ ≤ '9') then
      some (c₂.toNat - 48, rest)
    else if '1' ≤ c ∧ c ≤ '9' then
      some (c.toNat - 48, c₂ :: rest)
    else if c = ' ' ∧ ('1' ≤ c₂ ∧ c₂ ≤ '9') then
      some (c₂.toNat - 48, rest)
    else Option.none
  | [c] =>
    if '1' ≤ c ∧ c ≤ '9' then some (c.toNat - 48, []) else Option.none
  | [] => Option.none

/-- `datetime.datetime.strptime(s, "%Y-%m-%d")`: `%Y` is exactly four
(ASCII) digits, each `-` a literal, `%m` and `%d` the `_strptime`
regex tokens above, the whole string must be consumed ("unconverted
data remains" otherwise), and the resulting `datetime` constructor
validates `MINYEAR <= year` and the day against the month's length
(with leap years).  `Option.none` models the `ValueError` raise. -/
def parseYmd (s : String) : Option Date :=
  match s.toList with
  | y₁ :: y₂ :: y₃ :: y₄ :: sep₁ :: rest₁ =>
    if y₁.isDigit ∧ y₂.isDigit ∧ y₃.isDigit ∧ y₄.isDigit ∧ sep₁ = '-' then
      let y := digitsToNat [y₁, y₂, y₃, y₄]
      match parseMonth rest₁ with
      | some (m, sep₂ :: rest₂) =>
        if sep₂ = '-' then
          match parseDay rest₂ with
          | some (d, []) =>
            if 1 ≤ y ∧ 1 ≤ d ∧ d ≤ daysInMonth y m then some ⟨y, m, d⟩
            else Option.none
          | _ => Option.none
        else Option.none
      | _ => Option.none
    else Option.none
  | _ => Option.none

/-- The `current_app.config` keys this module reads. -/
structure Config where
  /-- `WORKFLOWS_MATCH_REMOTE_SERVER_URL` -/
  matchRemoteServerUrl : String
  /-- `SERVER_NAME` -/
  serverName : String
  /-- `INSPIRE_ACCEPTED_CATEGORIES` (default `[]`) -/
  acceptedCategories : List String
  /-- truthiness of `PRODUCTION_MODE` -/
  productionMode : Bool
  /-- `HOLDING_PEN_MATCH_MAPPING` (default empty), a field → lookup-path
  dict iterated with `six.iteritems`, modelled as an association list -/
  holdingPenMatchMapping : List (String × String)


/-- An incoming record, holding the projections of `obj.data` that this
module reads through external utilities:
`arxiv_id` is the result of `get_clean_arXiv_id(record)` (external
`inspirehep.utils.arxiv`), with `""` standing for both `None` and the
empty string since `if arxiv_id:` does not distinguish them;
`dois` and `arxiv_eprints` are `get_value(record, 'dois.value')` and
`get_value(record, 'arxiv_eprints.value')` (external
`inspirehep.utils.record`), `Option.none` when the path is absent;
`categories` is `get_value(record, 'subject_terms.term')`;
`earliest_date` and `preprint_date` are `record.get(_, '')`;
`matchLookups` gives `get_value(record, lookup, [])` for the lookup paths
of `HOLDING_PEN_MATCH_MAPPING`. -/
structure Record where
  arxiv_id : String
  dois : Option (List String)
  arxiv_eprints : Option (List String)
  categories : Option (List String)
  earliest_date : String
  preprint_date : String
  matchLookups : List (String × List String)


/-- `get_value(record, lookup, [])` for a holding-pen lookup path. -/
def Record.lookupPath (r : Record) (lookup : String) : List String :=
  ((r.matchLookups.lookup lookup).getD [])

/-- The workflow object interface this module consumes: `.id`, `.data`,
`.extra_data`. Log calls are returned as traces, not stored. -/
structure WorkflowObj where
  id : Int
  data : Record
  extra_data : List (String × PyVal)


/-- Outcome of the remote GET request in `search`: a connection failure,
or a response whose body decodes to `some` JSON value (`Option.none`
models a body that fails to decode, the `ValueError` from `.json()`). -/
inductive RemoteOutcome where
  | connError : RemoteOutcome
  | ok : Option PyVal → RemoteOutcome

/-- A GET request: target URL and its query parameters. -/
structure GetRequest where
  url : String
  params : List (String × String)
deriving DecidableEq

/-- Result of `search` and of the `match_by_*` helpers: the requests
issued, the log messages emitted, and the returned value or the
propagated exception. -/
structure SearchOut where
  requests : List GetRequest
  logs : List String
  result : Except PyErr PyVal


/-- `search(query)`: one GET to the configured remote server with
parameters `p=query, of='id'`; a connection error or an undecodable body
is logged and re-raised, otherwise the decoded JSON body is returned.
The `remote` oracle gives the outcome of the request per parameter
list. -/
def search (c : Config) (remote : List (String × String) → RemoteOutcome)
    (query : String) : SearchOut :=
  let params : List (String × String) := [("p", query), ("of", "id")]
  let req : GetRequest := ⟨c.matchRemoteServerUrl, params⟩
  match remote params with
  | .connError =>
    { requests := [req]
      logs := ["Error connecting to remote server"]
      result := .error .connectionError }
  | .ok Option.none =>
    { requests := [req]
      logs := ["Error decoding results from remote server"]
      result := .error .valueError }
  | .ok (some v) =>
    { requests := [req], logs := [], result := .ok v }

/-- `match_by_arxiv_id(record)`: when `get_clean_arXiv_id(record)` is
truthy, search for `035:"<id>"`; otherwise return `list()` without
searching. -/
def match_by_arxiv_id (c : Config)
    (remote : List (String × String) → RemoteOutcome) (record : Record) :
    SearchOut :=
  if record.arxiv_id ≠ "" then
    search c remote ("035:\"" ++ record.arxiv_id ++ "\"")
  else
    { requests := [], logs := [], result := .ok (.list []) }

/-- The loop of `match_by_doi`: for each DOI search `0247:"<doi>"` and
fold the results into the accumulating set; an exception from `search`
or from iterating a non-iterable result propagates. -/
def doiLoop (c : Config) (remote : List (String × String) → RemoteOutcome)
    (dois : List String) (acc : List PyVal) :
    List GetRequest × List String × Except PyErr (List PyVal) :=
  match dois with
  | [] => ([], [], .ok acc)
  | doi :: rest =>
    let out := search c remote ("0247:\"" ++ doi ++ "\"")
    match out.result with
    | .error e => (out.requests, out.logs, .error e)
    | .ok v =>
      match iterElems v with
      | .error e => (out.requests, out.logs, .error e)
      | .ok xs =>
        let next := doiLoop c remote rest (setUpdateList acc xs)
        (out.requests ++ next.1, out.logs ++ next.2.1, next.2.2)

/-- `match_by_doi(record)`: union the searches over
`get_value(record, 'dois.value', [])` and return the set as a list. -/
def match_by_doi (c : Config)
    (remote : List (String × String) → RemoteOutcome) (record : Record) :
    SearchOut :=
  let out := doiLoop c remote (record.dois.getD []) []
  { requests := out.1, logs := out.2.1, result := out.2.2.map .list }

/-- `os.path.join(base, 'record')` for the base URLs built here. -/
def pathJoin (base comp : String) : String :=
  if base.endsWith "/" then base ++ comp else base ++ "/" ++ comp

/-- `re.match('^https?://', base_url)` as a Bool. -/
def hasHttpScheme (s : String) : Bool :=
  s.startsWith "http://" || s.startsWith "https://"

/-- Result of a workflow task: the (possibly updated) object, the GET
requests issued, the log messages emitted, and the returned value or
propagated exception. -/
structure TaskOut where
  obj : WorkflowObj
  requests : List GetRequest
  logs : List String
  result : Except PyErr Bool

/-- `match_legacy_inspire(obj, eng)`: union of the arXiv and DOI
matches; writes `extra_data['record_matches']` with the matched recids
coerced to strings, and returns `bool(recids)`.  When a search raises,
the exception propagates before `extra_data` is assigned. -/
def match_legacy_inspire (c : Config)
    (remote : List (String × String) → RemoteOutcome) (obj : WorkflowObj) :
    TaskOut :=
  let a := match_by_arxiv_id c remote obj.data
  match a.result with
  | .error e => ⟨obj, a.requests, a.logs, .error e⟩
  | .ok av =>
    let b := match_by_doi c remote obj.data
    match b.result with
    | .error e => ⟨obj, a.requests ++ b.requests, a.logs ++ b.logs, .error e⟩
    | .ok bv =>
      match iterElems av, iterElems bv with
      | .error e, _ => ⟨obj, a.requests ++ b.requests, a.logs ++ b.logs, .error e⟩
      | _, .error e => ⟨obj, a.requests ++ b.requests, a.logs ++ b.logs, .error e⟩
      | .ok as, .ok bs =>
        let response := setUpdateList (setUpdateList [] as) bs
        let base_url :=
          if hasHttpScheme c.serverName then c.serverName
          else "http://" ++ c.serverName
        let rm : PyVal := .dict
          [("recids", .list (response.map (fun recid => .str (pyStr recid)))),
           ("records", .list []),
           ("base_url", .str (pathJoin base_url "record"))]
        { obj := { obj with extra_data := dictSet obj.extra_data "record_matches" rm }
          requests := a.requests ++ b.requests
          logs := a.logs ++ b.logs
          result := .ok (response ≠ []) }

/-- A match returned by `invenio_matcher.api.match`: `.record` (a dict,
whose `.dumps()` is the dict itself and whose `.get('id')` is a key
lookup defaulting to `None`) and `.score`. -/
structure Matched where
  record : List (String × PyVal)
  score : PyVal

/-- The default queries of `match_with_invenio_matcher`. -/
def defaultQueries : List (List (String × String)) :=
  [[("type", "exact"), ("match", "dois.value")],
   [("type", "exact"), ("match", "arxiv_eprints.value")]]

/-- `get_value(obj.data, path)` with no default: `None` when absent. -/
def optListVal : Option (List String) → PyVal
  | Option.none => .none
  | some l => .list (l.map .str)

/-- The inner `_match_with_invenio_matcher(obj, eng)` returned by
`match_with_invenio_matcher(queries, index, doc_type)`: builds a partial
record from `dois.value` and `arxiv_eprints.value`, runs the external
matcher (the `matchFn` oracle), stores the matched recids verbatim
(`matched_record.record.get('id')`, with no string coercion) together
with record dumps and scores in `extra_data['record_matches']`, and
returns `bool(recids)`. -/
def match_with_invenio_matcher (c : Config)
    (matchFn : List (String × PyVal) → List (List (String × String)) →
      String → String → List Matched)
    (queries : Option (List (List (String × String))))
    (index : String := "records-hep") (doc_type : String := "hep")
    (obj : WorkflowObj) : WorkflowObj × Bool :=
  let queries_ := queries.getD defaultQueries
  let record : List (String × PyVal) :=
    [("dois.value", optListVal obj.data.dois),
     ("arxiv_eprints.value", optListVal obj.data.arxiv_eprints)]
  let matchedList := matchFn record queries_ index doc_type
  let recids := matchedList.map (fun m => dictGetD m.record "id" .none)
  let records := matchedList.map (fun m =>
    PyVal.dict [("source", .dict m.record), ("score", m.score)])
  let rm : PyVal := .dict
    [("recids", .list recids),
     ("records", .list records),
     ("base_url", .str (pathJoin c.serverName "record"))]
  ({ obj with extra_data := dictSet obj.extra_data "record_matches" rm },
   recids ≠ [])

/-- `was_already_harvested(record)`: `True` as soon as a category,
lowercased, is in `INSPIRE_ACCEPTED_CATEGORIES`; otherwise the function
falls off its end and returns `None`. -/
def was_already_harvested (c : Config) (record : Record) : PyVal :=
  loop (record.categories.getD [])
where
  loop : List String → PyVal
    | [] => .none
    | category :: rest =>
      if category.toLower ∈ c.acceptedCategories then .bool true
      else loop rest

/-- `is_too_old(record, days_ago=5)`: parse `earliest_date`, falling
back to `preprint_date` when falsy; `strptime` raising on an empty or
malformed string is the `.error .valueError` case.  `True` when the
parsed date is older than `days_ago` days (per the external
`date_older_than`, the `dateOlderThan` oracle, against `now`), `None`
otherwise. -/
def is_too_old (dateOlderThan : Date → Date → Nat → Bool) (now : Date)
    (record : Record) (days_ago : Nat := 5) : Except PyErr PyVal :=
  let earliest_date :=
    if record.earliest_date ≠ "" then record.earliest_date
    else record.preprint_date
  match parseYmd earliest_date with
  | Option.none => .error .valueError
  | some parsed_date =>
    if dateOlderThan parsed_date now days_ago then .ok (.bool true)
    else .ok .none

/-- `record_exists(obj, eng)`: off production, run the invenio matcher
and return a boolean; on production, log the deprecation warning and
then evaluate `match(obj, eng)` — but `match` is defined nowhere in the
module (not imported, not a builtin), so the name lookup raises
`NameError`. -/
def record_exists (c : Config)
    (matchFn : List (String × PyVal) → List (List (String × String)) →
      String → String → List Matched)
    (obj : WorkflowObj) : WorkflowObj × List String × Except PyErr Bool :=
  if !c.productionMode then
    let r := match_with_invenio_matcher c matchFn Option.none "records-hep" "hep" obj
    if r.2 then
      (r.1, ["Record already exists in INSPIRE (using matcher)."], .ok true)
    else
      (r.1, [], .ok false)
  else
    (obj, ["Remote match is deprecated."], .error (.nameError "match"))

/-- The return value component of `record_exists`. -/
def recordExistsResult (c : Config)
    (matchFn : List (String × PyVal) → List (List (String × String)) →
      String → String → List Matched)
    (obj : WorkflowObj) : Except PyErr Bool :=
  (record_exists c matchFn obj).2.2

/-- `set(id_list) - set([obj.id])`, kept as a duplicate-free list. -/
def pySetDiff (xs : List Int) (ys : List Int) : List Int :=
  (xs.foldl (fun acc x => if x ∈ acc then acc else acc ++ [x]) []).filter
    (fun x => x ∉ ys)

/-- The identifier queries of `exists_in_holding_pen`: one
`field:"value"` per value of each `HOLDING_PEN_MATCH_MAPPING` entry,
accumulated with `identifiers += [...]` in iteration order. -/
def holdingPenIdentifiers (c : Config) (r : Record) : List String :=
  c.holdingPenMatchMapping.foldr
    (fun fl acc =>
      ((r.lookupPath fl.2).map (fun i => fl.1 ++ ":\"" ++ i ++ "\"")) ++ acc)
    []

/-- Result of `exists_in_holding_pen`: the (possibly updated) object,
the holding-pen queries executed, the log messages, and the return
value. -/
structure HPOut where
  obj : WorkflowObj
  searched : List String
  logs : List String
  ret : Bool

/-- `exists_in_holding_pen(obj, eng)`: build `field:"value"` identifier
queries from `HOLDING_PEN_MATCH_MAPPING`; when any exist, run one
holding-pen search (the `hits` oracle, giving the `int(hit.id)` list for
the `" OR "`-joined query) and, when some hit differs from `obj.id`, log,
store the hit ids in `extra_data['holdingpen_ids']` and return `True`;
otherwise return `False` with nothing written. -/
def exists_in_holding_pen (c : Config) (hits : String → List Int)
    (obj : WorkflowObj) : HPOut :=
  let identifiers := holdingPenIdentifiers c obj.data
  if identifiers ≠ [] then
    let q := String.intercalate " OR " identifiers
    let id_list := hits q
    if pySetDiff id_list [obj.id] ≠ [] then
      { obj := { obj with
          extra_data := dictSet obj.extra_data "holdingpen_ids"
            (.list (id_list.map .int)) }
        searched := [q]
        logs := ["Record already found in Holding Pen"]
        ret := true }
    else
      { obj := obj, searched := [q], logs := [], ret := false }
  else
    { obj := obj, searched := [], logs := [], ret := false }

/-- A stored workflow object as `update_old_object` sees it:
`.workflow.name`, `.set_data`, `.save`. -/
structure OldObject where
  workflowName : String

/-- Effects `update_old_object` can perform on the old object:
`old_object.set_data(obj.data)` followed by `old_object.save()`, tagged
with the id that was looked up. -/
inductive UpdateEffect where
  | setDataAndSave : PyVal → Record → UpdateEffect

/-- Python truthiness of a value. -/
def pyTruthy : PyVal → Bool
  | .none => false
  | .bool b => b
  | .int n => n ≠ 0
  | .str s => s ≠ ""
  | .list l => l ≠ []
  | .dict l => l ≠ []

/-- `update_old_object(obj, eng)`: read
`extra_data.get('holdingpen_ids', [])`; when it is truthy and of length
one, fetch the old object (`WorkflowObject.query.get`, the `db` oracle,
`Option.none` when the id is unknown — attribute access on the
resulting `None` raises `AttributeError`) and update it when it belongs
to the same workflow; otherwise log and raise a plain `Exception`.
A non-list under the key never occurs (the one writer,
`exists_in_holding_pen`, stores a list); when truthy it would fail at
`len` with a `TypeError` unless string- or dict-valued, a case this
model collapses to `TypeError` as well. -/
def update_old_object (db : PyVal → Option OldObject) (engName : String)
    (obj : WorkflowObj) : List String × Except PyErr (List UpdateEffect) :=
  let failMsg := fun (v : PyVal) =>
    "Cannot update old object, non valid ids: " ++ pyStr v
  match dictGetD obj.extra_data "holdingpen_ids" (.list []) with
  | .list [id₀] =>
    match db id₀ with
    | Option.none => ([], .error .attributeError)
    | some old_object =>
      if old_object.workflowName = engName then
        ([], .ok [.setDataAndSave id₀ obj.data])
      else
        ([], .ok [])
  | .list l =>
    ([failMsg (.list l)], .error (.exception (failMsg (.list l))))
  | v =>
    if pyTruthy v then ([], .error .typeError)
    else ([failMsg v], .error (.exception (failMsg v)))

/-! Concrete fixtures used by witnesses and counterexamples. -/

/-- A concrete configuration. -/
def cfg₀ : Config :=
  { matchRemoteServerUrl := "http://remote/search"
    serverName := "inspirehep.net"
    acceptedCategories := ["hep-ph"]
    productionMode := false
    holdingPenMatchMapping := [("arxiv_eprints.value", "arxiv_eprints.value")] }

/-- A concrete record. -/
def rec₀ : Record :=
  { arxiv_id := "1234.5678"
    dois := some ["10.1000/x", "10.1000/y"]
    arxiv_eprints := some ["1234.5678"]
    categories := some ["Math"]
    earliest_date := "2016-03-01"
    preprint_date := ""
    matchLookups := [("arxiv_eprints.value", ["1234.5678"])] }

/-- A concrete workflow object. -/
def obj₀ : WorkflowObj := { id := 5, data := rec₀, extra_data := [] }

/-- A remote that always answers with a fixed id list. -/
def remoteOk₀ : List (String × String) → RemoteOutcome :=
  fun _ => .ok (some (.list [.int 11]))

/-- A remote that always fails to connect. -/
def remoteConnFail : List (String × String) → RemoteOutcome :=
  fun _ => .connError

/-! Claim theorems. -/

/-- C2: when the remote GET inside `search` hits a connection error or
its body fails to decode as JSON, `search` logs the failure and
re-raises that same exception without retrying (exactly one request is
issued even on failure); it returns normally exactly when the request
succeeds and its body decodes. -/
theorem search_failures_logged_and_reraised (c : Config)
    (remote : List (String × String) → RemoteOutcome) (q : String) :
    (remote [("p", q), ("of", "id")] = .connError →
      (search c remote q).result = .error .connectionError ∧
      (search c remote q).logs = ["Error connecting to remote server"]) ∧
    (remote [("p", q), ("of", "id")] = .ok Option.none →
      (search c remote q).result = .error .valueError ∧
      (search c remote q).logs = ["Error decoding results from remote server"]) ∧
    (∀ v, remote [("p", q), ("of", "id")] = .ok (some v) →
      (search c remote q).result = .ok v ∧ (search c remote q).logs = []) ∧
    ((∃ v, (search c remote q).result = .ok v) ↔
      ∃ v, remote [("p", q), ("of", "id")] = .ok (some v)) ∧
    (search c remote q).requests.length = 1 := by
  cases h : remote [("p", q), ("of", "id")] with
  | connError => simp [search, h]
  | ok o => cases o with
    | none => simp [search, h]
    | some v => simp [search, h]

/-- Witness for C2 at a concrete failing remote. -/
theorem search_failures_logged_and_reraised_witness :
    (search cfg₀ remoteConnFail "q").result = .error .connectionError :=
  ((search_failures_logged_and_reraised cfg₀ remoteConnFail "q").1 rfl).1

/-- C5: `search` issues exactly one GET, to the configured remote
server, with parameters exactly `p = query, of = "id"`, and returns the
decoded JSON body when the request succeeds. -/
theorem search_single_get_exact_params (c : Config)
    (remote : List (String × String) → RemoteOutcome) (q : String) :
    (search c remote q).requests =
      [⟨c.matchRemoteServerUrl, [("p", q), ("of", "id")]⟩] ∧
    (∀ v, remote [("p", q), ("of", "id")] = .ok (some v) →
      (search c remote q).result = .ok v) := by
  refine ⟨?_, ?_⟩
  · cases h : remote [("p", q), ("of", "id")] with
    | connError => simp [search, h]
    | ok o => cases o with
      | none => simp [search, h]
      | some v => simp [search, h]
  · intro v hv
    simp [search, hv]

/-- Witness for C5 at a concrete succeeding remote. -/
theorem search_single_get_exact_params_witness :
    (search cfg₀ remoteOk₀ "035:x").result = .ok (.list [.int 11]) :=
  (search_single_get_exact_params cfg₀ remoteOk₀ "035:x").2 _ rfl

/-- The date string `is_too_old` hands to `strptime`: `earliest_date`,
falling back to `preprint_date` when the former is falsy. -/
def selectedDate (r : Record) : String :=
  if r.earliest_date ≠ "" then r.earliest_date else r.preprint_date

/-- A record carrying no date at all. -/
def recNoDate : Record :=
  { arxiv_id := ""
    dois := Option.none
    arxiv_eprints := Option.none
    categories := Option.none
    earliest_date := ""
    preprint_date := ""
    matchLookups := [] }

/-- C9: `is_too_old` raises (`strptime` `ValueError`) when both date
fields are empty or missing, or when the selected date string is not in
`%Y-%m-%d` format; it returns normally exactly when the selected string
parses. -/
theorem is_too_old_raises_without_parseable_date
    (f : Date → Date → Nat → Bool) (now : Date) (record : Record) (n : Nat) :
    (record.earliest_date = "" ∧ record.preprint_date = "" →
      is_too_old f now record n = .error .valueError) ∧
    (parseYmd (selectedDate record) = Option.none →
      is_too_old f now record n = .error .valueError) ∧
    ((∃ v, is_too_old f now record n = .ok v) ↔
      (parseYmd (selectedDate record)).isSome) := by
  have hdef : is_too_old f now record n =
      (match parseYmd (selectedDate record) with
       | Option.none => .error .valueError
       | some d => if f d now n then .ok (.bool true) else .ok .none) := rfl
  refine ⟨fun hemp => ?_, fun hnone => ?_, ?_⟩
  · rw [hdef]
    have : selectedDate record = "" := by
      simp [selectedDate, hemp.1, hemp.2]
    rw [this]
    have h0 : parseYmd "" = Option.none := by decide
    rw [h0]
  · rw [hdef, hnone]
  · rw [hdef]
    cases hp : parseYmd (selectedDate record) with
    | none => simp
    | some d =>
      simp only [Option.isSome_some, iff_true]
      by_cases hf : f d now n <;> simp [hf]

/-- Witness for C9 at a record with no date. -/
theorem is_too_old_raises_without_parseable_date_witness :
    is_too_old (fun _ _ _ => true) ⟨2016, 3, 1⟩ recNoDate 5 =
      .error .valueError :=
  (is_too_old_raises_without_parseable_date
    (fun _ _ _ => true) ⟨2016, 3, 1⟩ recNoDate 5).1 ⟨rfl, rfl⟩

/-- A matcher oracle that never matches. -/
def matchFnEmpty : List (String × PyVal) → List (List (String × String)) →
    String → String → List Matched :=
  fun _ _ _ _ => []

/-- `cfg₀` with `PRODUCTION_MODE` set. -/
def cfgProd : Config := { cfg₀ with productionMode := true }

/-- C10: with `PRODUCTION_MODE` set, `record_exists` logs the
deprecation warning and then raises `NameError`, since the legacy
`match` function it calls is defined nowhere in the module; it can
return a boolean only when `PRODUCTION_MODE` is unset. -/
theorem record_exists_name_error_on_production (c : Config)
    (matchFn : List (String × PyVal) → List (List (String × String)) →
      String → String → List Matched)
    (obj : WorkflowObj) :
    (c.productionMode = true →
      (record_exists c matchFn obj).2.2 = .error (.nameError "match") ∧
      (record_exists c matchFn obj).2.1 = ["Remote match is deprecated."]) ∧
    (c.productionMode = false →
      ∃ b, (record_exists c matchFn obj).2.2 = .ok b) := by
  refine ⟨fun hprod => ?_, fun hprod => ?_⟩
  · simp [record_exists, hprod]
  · simp only [record_exists, hprod, Bool.not_false, if_true]
    by_cases hm :
        (match_with_invenio_matcher c matchFn Option.none "records-hep" "hep" obj).2
    · exact ⟨true, by simp [hm]⟩
    · exact ⟨false, by simp [hm]⟩

/-- Witness for C10 on a production configuration. -/
theorem record_exists_name_error_on_production_witness :
    (record_exists cfgProd matchFnEmpty obj₀).2.2 =
      .error (.nameError "match") :=
  ((record_exists_name_error_on_production cfgProd matchFnEmpty obj₀).1 rfl).1

/-! Set-accumulation lemmas shared by the `match_by_doi` claims. -/

lemma setInsert_nodup (s : List PyVal) (v : PyVal) (h : s.Nodup) :
    (setInsert s v).Nodup := by
  unfold setInsert
  split
  · exact h
  · rename_i hv
    simp [List.nodup_append, h, hv]

lemma setUpdateList_nodup (xs : List PyVal) :
    ∀ s : List PyVal, s.Nodup → (setUpdateList s xs).Nodup := by
  induction xs with
  | nil => intro s h; exact h
  | cons x xs ih =>
    intro s h
    exact ih (setInsert s x) (setInsert_nodup s x h)

lemma doiLoop_ok_nodup (c : Config)
    (remote : List (String × String) → RemoteOutcome) :
    ∀ (dois : List String) (acc l : List PyVal), acc.Nodup →
      (doiLoop c remote dois acc).2.2 = .ok l → l.Nodup := by
  intro dois
  induction dois with
  | nil =>
    intro acc l h hl
    simp only [doiLoop] at hl
    cases hl
    exact h
  | cons doi rest ih =>
    intro acc l h hl
    simp only [doiLoop] at hl
    split at hl
    · simp at hl
    · split at hl
      · simp at hl
      · exact ih _ l (setUpdateList_nodup _ acc h) hl

/-- C8: with no clean arXiv id, `match_by_arxiv_id` returns the empty
list without issuing a search; with no DOIs, `match_by_doi` does the
same; and a successful `match_by_doi` result never holds duplicate
identifiers, being built through a set union. -/
theorem match_by_id_skips_search_and_dedups (c : Config)
    (remote : List (String × String) → RemoteOutcome) (record : Record) :
    (record.arxiv_id = "" →
      match_by_arxiv_id c remote record =
        { requests := [], logs := [], result := .ok (.list []) }) ∧
    (record.dois.getD [] = [] →
      match_by_doi c remote record =
        { requests := [], logs := [], result := .ok (.list []) }) ∧
    (∀ l, (match_by_doi c remote record).result = .ok (.list l) →
      l.Nodup) := by
  refine ⟨fun h => ?_, fun h => ?_, fun l hl => ?_⟩
  · simp [match_by_arxiv_id, h]
  · simp [match_by_doi, h, doiLoop, Except.map]
  · simp only [match_by_doi] at hl
    cases hd : (doiLoop c remote (record.dois.getD []) []).2.2 with
    | error e => rw [hd] at hl; simp [Except.map] at hl
    | ok acc =>
      rw [hd] at hl
      simp only [Except.map, Except.ok.injEq, PyVal.list.injEq] at hl
      exact hl ▸ doiLoop_ok_nodup c remote _ [] acc List.nodup_nil hd

/-- Witness for C8 on a record with no identifiers. -/
theorem match_by_id_skips_search_and_dedups_witness :
    match_by_arxiv_id cfg₀ remoteOk₀ recNoDate =
        { requests := [], logs := [], result := .ok (.list []) } ∧
    match_by_doi cfg₀ remoteOk₀ recNoDate =
        { requests := [], logs := [], result := .ok (.list []) } :=
  ⟨(match_by_id_skips_search_and_dedups cfg₀ remoteOk₀ recNoDate).1 rfl,
   (match_by_id_skips_search_and_dedups cfg₀ remoteOk₀ recNoDate).2.1 rfl⟩

/-- C6 counterexample: `was_already_harvested` on a record whose
categories are absent returns `None`, which is not a boolean, refuting
"was_already_harvested and is_too_old return a boolean on every
input". -/
theorem was_already_harvested_returns_none :
    was_already_harvested cfg₀ recNoDate = PyVal.none ∧
    (∀ b, PyVal.none ≠ PyVal.bool b) :=
  ⟨rfl, fun _ h => nomatch h⟩

/-- The category loop of `was_already_harvested` returns `True` exactly
when some category, lowercased, is in the accepted list. -/
lemma was_already_harvested_loop_true_iff (c : Config) :
    ∀ cats : List String,
      (was_already_harvested.loop c cats = .bool true ↔
        ∃ cat ∈ cats, cat.toLower ∈ c.acceptedCategories) := by
  intro cats
  induction cats with
  | nil =>
    constructor
    · intro h
      exact nomatch h
    · rintro ⟨x, hx, _⟩
      exact absurd hx (List.not_mem_nil x)
  | cons cat rest ih =>
    simp only [was_already_harvested.loop]
    split
    · rename_i hmem
      exact ⟨fun _ => ⟨cat, List.mem_cons_self cat rest, hmem⟩, fun _ => rfl⟩
    · rename_i hmem
      rw [ih]
      constructor
      · rintro ⟨x, hx, hacc⟩
        exact ⟨x, List.mem_cons_of_mem cat hx, hacc⟩
      · rintro ⟨x, hx, hacc⟩
        rcases List.mem_cons.1 hx with rfl | hx
        · exact absurd hacc hmem
        · exact ⟨x, hx, hacc⟩

/-- C6 (amended): `was_already_harvested` returns `True` exactly when
some category, lowercased, is in the accepted list, and `None` (not a
boolean) otherwise; `is_too_old`, when it returns at all, returns
`True` or `None`, and raises the `strptime` `ValueError` exactly when
its selected date string does not parse; `match_by_arxiv_id` returns
the empty list when no clean arXiv id exists and otherwise the remote
search's decoded JSON body verbatim; a successful `match_by_doi` always
returns a list. -/
theorem heuristics_result_shapes (c : Config)
    (remote : List (String × String) → RemoteOutcome) (record : Record)
    (f : Date → Date → Nat → Bool) (now : Date) (n : Nat) :
    (was_already_harvested c record = .bool true ↔
      ∃ cat ∈ record.categories.getD [],
        cat.toLower ∈ c.acceptedCategories) ∧
    (was_already_harvested c record = .bool true ∨
     was_already_harvested c record = PyVal.none) ∧
    (∀ v, is_too_old f now record n = .ok v →
      v = .bool true ∨ v = PyVal.none) ∧
    (is_too_old f now record n = .error .valueError ↔
      parseYmd (selectedDate record) = Option.none) ∧
    (record.arxiv_id = "" →
      (match_by_arxiv_id c remote record).result = .ok (.list [])) ∧
    (record.arxiv_id ≠ "" →
      match_by_arxiv_id c remote record =
        search c remote ("035:\"" ++ record.arxiv_id ++ "\"")) ∧
    (∀ v, (match_by_doi c remote record).result = .ok v →
      ∃ l, v = .list l) := by
  have hdef : is_too_old f now record n =
      (match parseYmd (selectedDate record) with
       | Option.none => .error .valueError
       | some d => if f d now n then .ok (.bool true) else .ok .none) := rfl
  refine ⟨was_already_harvested_loop_true_iff c (record.categories.getD []),
    ?_, fun v hv => ?_, ?_, fun h => ?_, fun h => ?_, fun v hv => ?_⟩
  · unfold was_already_harvested
    induction record.categories.getD [] with
    | nil => exact Or.inr rfl
    | cons cat rest ih =>
      simp only [was_already_harvested.loop]
      split
      · exact Or.inl rfl
      · exact ih
  · rw [hdef] at hv
    split at hv
    · simp at hv
    · split at hv
      · cases hv; exact Or.inl rfl
      · cases hv; exact Or.inr rfl
  · rw [hdef]
    cases hp : parseYmd (selectedDate record) with
    | none => simp
    | some d =>
      simp only [hp]
      split <;> simp
  · simp [match_by_arxiv_id, h]
  · simp [match_by_arxiv_id, h]
  · simp only [match_by_doi] at hv
    cases hd : (doiLoop c remote (record.dois.getD []) []).2.2 with
    | error e => rw [hd] at hv; simp [Except.map] at hv
    | ok acc =>
      rw [hd] at hv
      simp only [Except.map, Except.ok.injEq] at hv
      exact ⟨acc, hv.symm⟩

/-- Witness for C6 (amended): concrete discharges of its hypotheses. -/
theorem heuristics_result_shapes_witness :
    (match_by_arxiv_id cfg₀ remoteOk₀ recNoDate).result = .ok (.list []) ∧
    (PyVal.bool true = .bool true ∨ PyVal.bool true = PyVal.none) ∧
    match_by_arxiv_id cfg₀ remoteOk₀ rec₀ =
      search cfg₀ remoteOk₀ ("035:\"" ++ rec₀.arxiv_id ++ "\"") :=
  ⟨(heuristics_result_shapes cfg₀ remoteOk₀ recNoDate
      (fun _ _ _ => true) ⟨2016, 3, 1⟩ 5).2.2.2.2.1 rfl,
   (heuristics_result_shapes cfg₀ remoteOk₀ rec₀
      (fun _ _ _ => true) ⟨2016, 3, 10⟩ 5).2.2.1 (.bool true) rfl,
   (heuristics_result_shapes cfg₀ remoteOk₀ rec₀
      (fun _ _ _ => true) ⟨2016, 3, 10⟩ 5).2.2.2.2.2.1 (by decide)⟩

/-- The list stored under `extra_data['record_matches']['recids']`
(empty when the keys are absent or not of the stored shape). -/
def recidsOf (o : WorkflowObj) : List PyVal :=
  match dictLookup o.extra_data "record_matches" with
  | some (.dict m) =>
    match dictLookup m "recids" with
    | some (.list l) => l
    | _ => []
  | _ => []

/-- A matcher oracle returning one matched record whose `id` is an
integer. -/
def matchFnInt : List (String × PyVal) → List (List (String × String)) →
    String → String → List Matched :=
  fun _ _ _ _ => [⟨[("id", .int 1234)], .int 1⟩]

/-- C1 counterexample: the function returned by
`match_with_invenio_matcher` copies `matched_record.record.get('id')`
into `recids` with no string coercion, so a matcher yielding an integer
id leaves a non-string in `extra_data['record_matches']['recids']`. -/
theorem invenio_matcher_recids_not_strings :
    recidsOf (match_with_invenio_matcher cfg₀ matchFnInt Option.none
      "records-hep" "hep" obj₀).1 = [.int 1234] ∧
    PyVal.isStr (.int 1234) = false := by
  constructor
  · rfl
  · rfl

/-- The `record_matches` dict `match_legacy_inspire` stores for a
response list `resp`. -/
def legacyRecordMatches (c : Config) (resp : List PyVal) : PyVal :=
  .dict [("recids", .list (resp.map (fun recid => .str (pyStr recid)))),
         ("records", .list []),
         ("base_url", .str (pathJoin
           (if hasHttpScheme c.serverName then c.serverName
            else "http://" ++ c.serverName) "record"))]

/-- Shape of a `match_legacy_inspire` run: either a propagated search
exception with the object untouched, or a successful run that rewrites
exactly the `record_matches` key with string-coerced recids. -/
lemma match_legacy_obj_shape (c : Config)
    (remote : List (String × String) → RemoteOutcome) (obj : WorkflowObj) :
    ((match_legacy_inspire c remote obj).obj = obj ∧
     ∃ e, (match_legacy_inspire c remote obj).result = Except.error e) ∨
    (∃ resp : List PyVal,
      (match_legacy_inspire c remote obj).obj =
        { obj with extra_data :=
            dictSet obj.extra_data "record_matches" (legacyRecordMatches c resp) } ∧
      (match_legacy_inspire c remote obj).result = .ok (resp ≠ [])) := by
  cases h1 : (match_by_arxiv_id c remote obj.data).result with
  | error e => exact Or.inl (by simp [match_legacy_inspire, h1])
  | ok av =>
    cases h2 : (match_by_doi c remote obj.data).result with
    | error e => exact Or.inl (by simp [match_legacy_inspire, h1, h2])
    | ok bv =>
      cases h3 : iterElems av with
      | error e => exact Or.inl (by simp [match_legacy_inspire, h1, h2, h3])
      | ok as =>
        cases h4 : iterElems bv with
        | error e =>
          exact Or.inl (by simp [match_legacy_inspire, h1, h2, h3, h4])
        | ok bs =>
          refine Or.inr ⟨setUpdateList (setUpdateList [] as) bs, ?_, ?_⟩ <;>
            simp [match_legacy_inspire, legacyRecordMatches, h1, h2, h3, h4]

/-- C1 (amended): `match_legacy_inspire` leaves
`extra_data['record_matches']['recids']` a list of strings (each recid
passes through `str`); the function returned by
`match_with_invenio_matcher` stores the matched record ids verbatim, so
its `recids` are all strings exactly when the matcher returns string
ids. -/
theorem record_matches_recids_shape (c : Config)
    (remote : List (String × String) → RemoteOutcome) (obj : WorkflowObj)
    (matchFn : List (String × PyVal) → List (List (String × String)) →
      String → String → List Matched)
    (queries : Option (List (List (String × String))))
    (index doc_type : String) :
    (∀ b, (match_legacy_inspire c remote obj).result = .ok b →
      ∀ r ∈ recidsOf (match_legacy_inspire c remote obj).obj,
        r.isStr = true) ∧
    (recidsOf (match_with_invenio_matcher c matchFn queries index
        doc_type obj).1 =
      (matchFn [("dois.value", optListVal obj.data.dois),
                ("arxiv_eprints.value", optListVal obj.data.arxiv_eprints)]
          (queries.getD defaultQueries) index doc_type).map
        (fun m => dictGetD m.record "id" PyVal.none)) ∧
    ((∀ m ∈ matchFn [("dois.value", optListVal obj.data.dois),
                     ("arxiv_eprints.value", optListVal obj.data.arxiv_eprints)]
          (queries.getD defaultQueries) index doc_type,
        (dictGetD m.record "id" PyVal.none).isStr = true) →
      ∀ r ∈ recidsOf (match_with_invenio_matcher c matchFn queries index
          doc_type obj).1, r.isStr = true) := by
  have hmatcher : recidsOf (match_with_invenio_matcher c matchFn queries
      index doc_type obj).1 =
      (matchFn [("dois.value", optListVal obj.data.dois),
                ("arxiv_eprints.value", optListVal obj.data.arxiv_eprints)]
          (queries.getD defaultQueries) index doc_type).map
        (fun m => dictGetD m.record "id" PyVal.none) := by
    simp [match_with_invenio_matcher, recidsOf, dictSet, dictLookup]
  refine ⟨fun b hb r hr => ?_, hmatcher, fun hall r hr => ?_⟩
  · rcases match_legacy_obj_shape c remote obj with ⟨_, e, he⟩ | ⟨resp, hobj, _⟩
    · rw [he] at hb
      exact absurd hb (by simp)
    · rw [hobj] at hr
      simp [recidsOf, dictSet, dictLookup, legacyRecordMatches,
        List.mem_map] at hr
      obtain ⟨x, _, hxr⟩ := hr
      rw [← hxr]
      rfl
  · rw [hmatcher] at hr
    obtain ⟨m, hm, rfl⟩ := List.mem_map.1 hr
    exact hall m hm

/-- Witness for C1 (amended) at a successful legacy run and a
string-returning matcher. -/
theorem record_matches_recids_shape_witness :
    ∀ r ∈ recidsOf (match_legacy_inspire cfg₀ remoteOk₀ obj₀).obj,
      r.isStr = true :=
  (record_matches_recids_shape cfg₀ remoteOk₀ obj₀ matchFnEmpty
    Option.none "records-hep" "hep").1 true rfl

/-! Holding-pen lemmas. -/

lemma mem_intDedup (xs : List Int) :
    ∀ (acc : List Int) (a : Int),
      a ∈ xs.foldl (fun acc x => if x ∈ acc then acc else acc ++ [x]) acc ↔
        a ∈ acc ∨ a ∈ xs := by
  induction xs with
  | nil => intro acc a; simp
  | cons x xs ih =>
    intro acc a
    rw [List.foldl_cons, ih]
    by_cases hx : x ∈ acc
    · rw [if_pos hx]
      constructor
      · intro h; tauto
      · rintro (h | h)
        · exact Or.inl h
        · rcases List.mem_cons.1 h with rfl | h
          · exact Or.inl hx
          · exact Or.inr h
    · rw [if_neg hx]
      simp only [List.mem_append, List.mem_singleton, List.mem_cons]
      tauto

lemma pySetDiff_singleton_ne_nil (xs : List Int) (y : Int) :
    pySetDiff xs [y] ≠ [] ↔ ∃ x ∈ xs, x ≠ y := by
  unfold pySetDiff
  constructor
  · intro h
    rcases List.exists_mem_of_ne_nil _ h with ⟨a, ha⟩
    rcases List.mem_filter.1 ha with ⟨hmem, hpred⟩
    refine ⟨a, ((mem_intDedup xs [] a).1 hmem).resolve_left (by simp), ?_⟩
    simpa using hpred
  · rintro ⟨x, hx, hxy⟩ h
    have hmem : x ∈ (xs.foldl
        (fun acc x => if x ∈ acc then acc else acc ++ [x]) []).filter
        (fun x => x ∉ [y]) :=
      List.mem_filter.2 ⟨(mem_intDedup xs [] x).2 (Or.inr hx), by simpa using hxy⟩
    rw [h] at hmem
    exact absurd hmem (List.not_mem_nil x)

/-- Shape of an `exists_in_holding_pen` run: either `False` with the
object untouched, or `True` with exactly the `holdingpen_ids` key
rewritten to the hit list. -/
lemma exists_in_holding_pen_obj_shape (c : Config)
    (hits : String → List Int) (obj : WorkflowObj) :
    ((exists_in_holding_pen c hits obj).obj = obj ∧
     (exists_in_holding_pen c hits obj).ret = false) ∨
    (∃ ids : List Int,
      (exists_in_holding_pen c hits obj).obj =
        { obj with extra_data :=
            dictSet obj.extra_data "holdingpen_ids" (.list (ids.map .int)) } ∧
      (exists_in_holding_pen c hits obj).ret = true) := by
  simp only [exists_in_holding_pen]
  split
  · split
    · exact Or.inr ⟨_, rfl, rfl⟩
    · exact Or.inl ⟨rfl, rfl⟩
  · exact Or.inl ⟨rfl, rfl⟩

/-- C4: with at least one identifier query, `exists_in_holding_pen`
returns `True` exactly when some hit id differs from `obj.id`; a result
set of only the object itself yields `False`; with no identifier
queries it returns `False` without searching. -/
theorem exists_in_holding_pen_excludes_self (c : Config)
    (hits : String → List Int) (obj : WorkflowObj) :
    (holdingPenIdentifiers c obj.data ≠ [] →
      ((exists_in_holding_pen c hits obj).ret = true ↔
        ∃ h ∈ hits (String.intercalate " OR "
          (holdingPenIdentifiers c obj.data)), h ≠ obj.id)) ∧
    (hits (String.intercalate " OR " (holdingPenIdentifiers c obj.data)) =
        [obj.id] →
      (exists_in_holding_pen c hits obj).ret = false) ∧
    (holdingPenIdentifiers c obj.data = [] →
      (exists_in_holding_pen c hits obj).ret = false ∧
      (exists_in_holding_pen c hits obj).searched = []) := by
  have hq := pySetDiff_singleton_ne_nil
    (hits (String.intercalate " OR " (holdingPenIdentifiers c obj.data)))
    obj.id
  refine ⟨fun hne => ?_, fun honly => ?_, fun hnil => ?_⟩
  · simp only [exists_in_holding_pen]
    rw [if_pos hne]
    by_cases hd : pySetDiff
        (hits (String.intercalate " OR " (holdingPenIdentifiers c obj.data)))
        [obj.id] ≠ []
    · rw [if_pos hd]
      simpa using hq.1 hd
    · rw [if_neg hd]
      simp only [Bool.false_eq_true, false_iff]
      intro hex
      exact hd (hq.2 hex)
  · by_cases hne : holdingPenIdentifiers c obj.data ≠ []
    · simp only [exists_in_holding_pen]
      rw [if_pos hne]
      have hdiff : ¬ pySetDiff
          (hits (String.intercalate " OR "
            (holdingPenIdentifiers c obj.data))) [obj.id] ≠ [] := by
        intro h
        rcases hq.1 h with ⟨x, hx, hxy⟩
        rw [honly] at hx
        exact hxy (List.mem_singleton.1 hx)
      rw [if_neg hdiff]
    · push_neg at hne
      simp [exists_in_holding_pen, hne]
  · simp [exists_in_holding_pen, hnil]

/-- A holding-pen oracle returning only the object itself. -/
def hitsSelf : String → List Int := fun _ => [5]

/-- Witness for C4: `obj₀` (id 5) with one identifier query and a hit
set of only itself yields `False`. -/
theorem exists_in_holding_pen_excludes_self_witness :
    (exists_in_holding_pen cfg₀ hitsSelf obj₀).ret = false :=
  (exists_in_holding_pen_excludes_self cfg₀ hitsSelf obj₀).2.1 rfl

lemma dictLookup_dictSet_ne (m : List (String × PyVal)) (k : String)
    (v : PyVal) (k' : String) (h : k' ≠ k) :
    dictLookup (dictSet m k v) k' = dictLookup m k' := by
  simp only [dictSet, dictLookup]
  rw [if_neg (fun hh => h hh.symm)]

/-- C7: `match_legacy_inspire` and `exists_in_holding_pen` leave
`obj.data`, `obj.id` and every `extra_data` key other than their own
(`record_matches`, resp. `holdingpen_ids`) unchanged, and
`exists_in_holding_pen` writes nothing at all when it returns
`False`. -/
theorem matchers_mutate_only_their_key (c : Config)
    (remote : List (String × String) → RemoteOutcome)
    (hits : String → List Int) (obj : WorkflowObj) :
    ((match_legacy_inspire c remote obj).obj.data = obj.data ∧
     (match_legacy_inspire c remote obj).obj.id = obj.id ∧
     ∀ k, k ≠ "record_matches" →
       dictLookup (match_legacy_inspire c remote obj).obj.extra_data k =
         dictLookup obj.extra_data k) ∧
    ((exists_in_holding_pen c hits obj).obj.data = obj.data ∧
     (exists_in_holding_pen c hits obj).obj.id = obj.id ∧
     (∀ k, k ≠ "holdingpen_ids" →
       dictLookup (exists_in_holding_pen c hits obj).obj.extra_data k =
         dictLookup obj.extra_data k) ∧
     ((exists_in_holding_pen c hits obj).ret = false →
       (exists_in_holding_pen c hits obj).obj = obj)) := by
  constructor
  · rcases match_legacy_obj_shape c remote obj with ⟨hobj, _⟩ | ⟨resp, hobj, _⟩ <;>
      rw [hobj]
    · exact ⟨rfl, rfl, fun k _ => rfl⟩
    · exact ⟨rfl, rfl, fun k hk => dictLookup_dictSet_ne _ _ _ _ hk⟩
  · rcases exists_in_holding_pen_obj_shape c hits obj with
      ⟨hobj, hret⟩ | ⟨ids, hobj, hret⟩ <;> rw [hobj]
    · exact ⟨rfl, rfl, fun k _ => rfl, fun _ => rfl⟩
    · refine ⟨rfl, rfl, fun k hk => dictLookup_dictSet_ne _ _ _ _ hk,
        fun hfalse => ?_⟩
      rw [hret] at hfalse
      exact absurd hfalse (by simp)

/-- Witness for C7 at concrete inputs. -/
theorem matchers_mutate_only_their_key_witness :
    dictLookup (match_legacy_inspire cfg₀ remoteOk₀ obj₀).obj.extra_data
        "other_key" = dictLookup obj₀.extra_data "other_key" ∧
    (exists_in_holding_pen cfg₀ hitsSelf obj₀).obj = obj₀ :=
  ⟨(matchers_mutate_only_their_key cfg₀ remoteOk₀ hitsSelf obj₀).1.2.2
      "other_key" (by decide),
   (matchers_mutate_only_their_key cfg₀ remoteOk₀ hitsSelf obj₀).2.2.2.2 rfl⟩

/-- An object holding exactly one holding-pen id, `7`. -/
def objC3 : WorkflowObj :=
  { id := 1, data := recNoDate,
    extra_data := [("holdingpen_ids", .list [.int 7])] }

/-- A workflow-object database with no entries. -/
def dbEmpty : PyVal → Option OldObject := fun _ => Option.none

/-- A database answering every id with an object of workflow
`"workflow"`. -/
def dbWf : PyVal → Option OldObject := fun _ => some ⟨"workflow"⟩

/-- C3 counterexample: with exactly one identifier that is unknown to
the database, `update_old_object` still raises — `query.get` returns
`None` and the `.workflow` access fails — refuting "when it contains
exactly one identifier the operation does not raise". -/
theorem update_old_object_single_unknown_id_raises :
    dictGetD objC3.extra_data "holdingpen_ids" (.list []) =
      .list [.int 7] ∧
    (update_old_object dbEmpty "workflow" objC3).2 =
      .error .attributeError :=
  ⟨rfl, rfl⟩

/-- C3 (amended): `update_old_object` raises its plain `Exception`
exactly when `holdingpen_ids` is missing, empty, or holds more than one
identifier; with exactly one identifier no generic `Exception` is
raised, and the call raises nothing at all provided the identifier is
found in the database (an unknown identifier still fails, with an
`AttributeError` on the `None` returned by the lookup). -/
theorem update_old_object_exception_iff (db : PyVal → Option OldObject)
    (engName : String) (obj : WorkflowObj) (l : List PyVal)
    (h : dictGetD obj.extra_data "holdingpen_ids" (.list []) = .list l) :
    ((∃ msg,
        (update_old_object db engName obj).2 = .error (.exception msg)) ↔
      l.length ≠ 1) ∧
    (∀ x, l = [x] → ∀ o, db x = some o →
      ∃ r, (update_old_object db engName obj).2 = .ok r) := by
  constructor
  · unfold update_old_object
    rw [h]
    rcases l with _ | ⟨x, _ | ⟨y, rest⟩⟩
    · simp
    · cases hdb : db x with
      | none => simp [hdb]
      | some o => by_cases hw : o.workflowName = engName <;> simp [hdb, hw]
    · simp
  · intro x hx o hdb
    subst hx
    unfold update_old_object
    rw [h]
    by_cases hw : o.workflowName = engName <;> simp [hdb, hw]

/-- Witness for C3 (amended): an empty id set raises the generic
exception; a single known id returns without raising. -/
theorem update_old_object_exception_iff_witness :
    (∃ msg,
      (update_old_object dbEmpty "workflow" obj₀).2 =
        .error (.exception msg)) ∧
    (∃ r, (update_old_object dbWf "workflow" objC3).2 = .ok r) :=
  ⟨(update_old_object_exception_iff dbEmpty "workflow" obj₀ [] rfl).1.2
      (by decide),
   (update_old_object_exception_iff dbWf "workflow" objC3 [.int 7] rfl).2
      (.int 7) rfl ⟨"workflow"⟩ rfl⟩

end Matching
